import Mathlib

/-!
Verification of the trip-cost and recommendation scoring engine of the
travel-planning application (services/recommendation_service.py and
services/cost_calculation_service.py), shallowly embedded over ℚ (for the
monetary arithmetic, where Python uses floats but every claim is about the
exact formulas) and over ℝ (for the Haversine distance).
-/

namespace Miniproject

/-- Python's built-in `round` to the nearest integer: ties go to the even
integer (banker's rounding), which is the documented behaviour of `round`
on Python numbers. -/
def pyRound (q : ℚ) : ℤ :=
  if q - ⌊q⌋ = 1 / 2 then (if ⌊q⌋ % 2 = 0 then ⌊q⌋ else ⌊q⌋ + 1) else round q

/-- Python's `round(x, 2)` (used for all monetary outputs of the
recommendation service). -/
def round2 (q : ℚ) : ℚ := (pyRound (q * 100) : ℚ) / 100

/-- Python's `round(x, 1)` (used for the `distance_km` output field). -/
def round1 (q : ℚ) : ℚ := (pyRound (q * 10) : ℚ) / 10

/-! ### Monotonicity of Python rounding -/

lemma pyRound_ge_floor (q : ℚ) : ⌊q⌋ ≤ pyRound q := by
  unfold pyRound
  split_ifs with h1 h2
  · exact le_refl _
  · omega
  · rw [round_eq]
    exact Int.floor_mono (by linarith)

lemma pyRound_le_floor_add_one (q : ℚ) : pyRound q ≤ ⌊q⌋ + 1 := by
  unfold pyRound
  split_ifs with h1 h2
  · omega
  · omega
  · rw [round_eq]
    have hlt : q + 1 / 2 < (⌊q⌋ + 1 : ℤ) + 1 := by
      have := Int.lt_floor_add_one q
      push_cast
      linarith
    have := Int.floor_lt.mpr (by exact_mod_cast hlt)
    omega

lemma round_rat_mono {a b : ℚ} (h : a ≤ b) : round a ≤ round b := by
  rw [round_eq, round_eq]
  exact Int.floor_mono (by linarith)

lemma round_eq_floor_of_fract_lt {q : ℚ} (h : q - ⌊q⌋ < 1 / 2) : round q = ⌊q⌋ := by
  rw [round_eq]
  apply Int.floor_eq_iff.mpr
  constructor
  · have := Int.floor_le q
    linarith
  · linarith

lemma round_eq_floor_add_one_of_fract_gt {q : ℚ} (h : 1 / 2 < q - ⌊q⌋) :
    round q = ⌊q⌋ + 1 := by
  rw [round_eq]
  apply Int.floor_eq_iff.mpr
  constructor
  · push_cast
    linarith
  · have := Int.lt_floor_add_one q
    push_cast
    linarith

lemma pyRound_mono {a b : ℚ} (h : a ≤ b) : pyRound a ≤ pyRound b := by
  rcases lt_or_eq_of_le (Int.floor_mono h) with hf | hf
  · calc pyRound a ≤ ⌊a⌋ + 1 := pyRound_le_floor_add_one a
      _ ≤ ⌊b⌋ := by omega
      _ ≤ pyRound b := pyRound_ge_floor b
  · -- equal floors
    have hfr : a - ⌊a⌋ ≤ b - ⌊b⌋ := by rw [← hf]; linarith
    by_cases ha : a - ⌊a⌋ = 1 / 2 <;> by_cases hb : b - ⌊b⌋ = 1 / 2
    · -- both ties: then a = b
      have hab : a = b := by
        have h1 : a = (⌊a⌋ : ℚ) + 1 / 2 := by linarith
        have h2 : b = (⌊b⌋ : ℚ) + 1 / 2 := by linarith
        rw [h1, h2, hf]
      rw [hab]
    · -- a is a tie, b is not: the fractional part of b exceeds 1/2
      have hgt : 1 / 2 < b - ⌊b⌋ := lt_of_le_of_ne (by linarith) (Ne.symm hb)
      unfold pyRound
      rw [if_pos ha, if_neg hb, round_eq_floor_add_one_of_fract_gt hgt]
      split_ifs <;> omega
    · -- b is a tie, a is not: the fractional part of a is below 1/2
      have hlt : a - ⌊a⌋ < 1 / 2 := lt_of_le_of_ne (by linarith) ha
      unfold pyRound
      rw [if_neg ha, if_pos hb, round_eq_floor_of_fract_lt hlt]
      split_ifs <;> omega
    · unfold pyRound
      rw [if_neg ha, if_neg hb]
      exact round_rat_mono h

lemma round2_mono {a b : ℚ} (h : a ≤ b) : round2 a ≤ round2 b := by
  unfold round2
  have := pyRound_mono (show a * 100 ≤ b * 100 by linarith)
  have : (pyRound (a * 100) : ℚ) ≤ (pyRound (b * 100) : ℚ) := by exact_mod_cast this
  linarith

/-! ### TransportCostModel: `RecommendationService.calculate_transportation_cost`

The source returns a dict of mode costs; absent modes are `none` here, and
`recommended` holds the cost value stored under the `'recommended'` key
(the source stores `costs['recommended'] = costs['bus']` etc., i.e. the cost
of the designated recommended option, not a mode name). -/

@[ext] structure TransportCosts where
  bus : Option ℚ := none
  taxi : Option ℚ := none
  train : Option ℚ := none
  budget_flight : Option ℚ := none
  standard_flight : Option ℚ := none
  premium_flight : Option ℚ := none
  business_flight : Option ℚ := none
  recommended : ℚ
deriving DecidableEq

def calculate_transportation_cost (distance_km : ℚ) : TransportCosts :=
  if distance_km < 50 then
    { bus := some (round2 (distance_km * 0.50))
      taxi := some (round2 (distance_km * 1.50))
      recommended := round2 (distance_km * 0.50) }
  else if distance_km < 300 then
    { bus := some (round2 (50 + (distance_km - 50) * 0.15))
      train := some (round2 (40 + (distance_km - 50) * 0.20))
      taxi := some (round2 (distance_km * 1.20))
      recommended := round2 (50 + (distance_km - 50) * 0.15) }
  else if distance_km < 1000 then
    { train := some (round2 (80 + (distance_km - 300) * 0.12))
      budget_flight := some (round2 (100 + (distance_km - 300) * 0.25))
      standard_flight := some (round2 (150 + (distance_km - 300) * 0.35))
      recommended := round2 (100 + (distance_km - 300) * 0.25) }
  else if distance_km < 3000 then
    { budget_flight := some (round2 (250 + (distance_km - 1000) * 0.15))
      standard_flight := some (round2 (400 + (distance_km - 1000) * 0.20))
      premium_flight := some (round2 (800 + (distance_km - 1000) * 0.30))
      recommended := round2 (250 + (distance_km - 1000) * 0.15) }
  else
    { budget_flight := some (round2 (550 + (distance_km - 3000) * 0.08))
      standard_flight := some (round2 (900 + (distance_km - 3000) * 0.12))
      business_flight := some (round2 (2000 + (distance_km - 3000) * 0.25))
      recommended := round2 (550 + (distance_km - 3000) * 0.08) }

/-! ### BudgetSynthesizer: `RecommendationService.calculate_comprehensive_budget` -/

/-- The accommodation multiplier dict lookup
`{'budget': 0.6, 'mid-range': 1.0, 'luxury': 2.5}.get(budget_tier, 1.0)`. -/
def accommodation_multiplier (budget_tier : String) : ℚ :=
  if budget_tier = "budget" then 0.6
  else if budget_tier = "mid-range" then 1.0
  else if budget_tier = "luxury" then 2.5
  else 1.0

/-- The food multiplier dict lookup
`{'budget': 0.7, 'mid-range': 1.0, 'luxury': 2.0}.get(budget_tier, 1.0)`. -/
def food_multiplier (budget_tier : String) : ℚ :=
  if budget_tier = "budget" then 0.7
  else if budget_tier = "mid-range" then 1.0
  else if budget_tier = "luxury" then 2.0
  else 1.0

@[ext] structure BudgetBreakdown where
  transportation : ℚ
  transportation_options : TransportCosts
  accommodation : ℚ
  accommodation_per_night : ℚ
  food : ℚ
  food_per_day : ℚ
  local_transport : ℚ
  activities : ℚ
  miscellaneous : ℚ
  insurance : ℚ
  contingency : ℚ
  subtotal : ℚ
  total : ℚ
  per_day_average : ℚ
deriving DecidableEq

/-- The local variable `grand_total` of the source (the pre-rounding total),
exposed as its own definition so monotonicity can be stated about it. -/
def grand_total (distance_km : ℚ) (duration_days : ℤ) (destination_daily_cost : ℚ)
    (budget_tier : String) : ℚ :=
  let transport_total := (calculate_transportation_cost distance_km).recommended * 2
  let am := accommodation_multiplier budget_tier
  let fm := food_multiplier budget_tier
  let accommodation_total := destination_daily_cost * 0.4 * am * (duration_days : ℚ)
  let food_total := destination_daily_cost * 0.35 * fm * (duration_days : ℚ)
  let local_transport_total := destination_daily_cost * 0.15 * am * (duration_days : ℚ)
  let activities_total := destination_daily_cost * 0.10 * (duration_days : ℚ)
  let misc_total := (food_total + activities_total) * 0.15
  let subtotal := transport_total + accommodation_total + food_total +
    local_transport_total + activities_total + misc_total
  let insurance := subtotal * 0.05
  let total_before_contingency := subtotal + insurance
  total_before_contingency + total_before_contingency * 0.10

def calculate_comprehensive_budget (distance_km : ℚ) (duration_days : ℤ)
    (destination_daily_cost : ℚ) (budget_tier : String := "mid-range") : BudgetBreakdown :=
  let transport_costs := calculate_transportation_cost distance_km
  let transport_total := transport_costs.recommended * 2
  let am := accommodation_multiplier budget_tier
  let accommodation_per_night := destination_daily_cost * 0.4 * am
  let accommodation_total := accommodation_per_night * (duration_days : ℚ)
  let fm := food_multiplier budget_tier
  let food_per_day := destination_daily_cost * 0.35 * fm
  let food_total := food_per_day * (duration_days : ℚ)
  let local_transport_per_day := destination_daily_cost * 0.15 * am
  let local_transport_total := local_transport_per_day * (duration_days : ℚ)
  let activities_per_day := destination_daily_cost * 0.10
  let activities_total := activities_per_day * (duration_days : ℚ)
  let misc_total := (food_total + activities_total) * 0.15
  let subtotal := transport_total + accommodation_total + food_total +
    local_transport_total + activities_total + misc_total
  let insurance := subtotal * 0.05
  let total_before_contingency := subtotal + insurance
  let contingency := total_before_contingency * 0.10
  let gt := total_before_contingency + contingency
  { transportation := round2 transport_total
    transportation_options := transport_costs
    accommodation := round2 accommodation_total
    accommodation_per_night := round2 accommodation_per_night
    food := round2 food_total
    food_per_day := round2 food_per_day
    local_transport := round2 local_transport_total
    activities := round2 activities_total
    miscellaneous := round2 misc_total
    insurance := round2 insurance
    contingency := round2 contingency
    subtotal := round2 subtotal
    total := round2 gt
    per_day_average := if 0 < duration_days then round2 (gt / (duration_days : ℚ)) else 0 }

lemma total_eq_round2_grand_total (d : ℚ) (n : ℤ) (c : ℚ) (t : String) :
    (calculate_comprehensive_budget d n c t).total = round2 (grand_total d n c t) := by
  simp only [calculate_comprehensive_budget, grand_total]

/-! ### GeoDistance: `RecommendationService.calculate_distance`

The Haversine computation uses `math.radians`, `math.sin`, `math.cos`,
`math.sqrt` and `math.atan2`; it is modelled over ℝ. `atan2` is the standard
two-argument arctangent with the C/IEEE convention `atan2(0, 0) = 0`. -/

noncomputable section

/-- `math.radians`. -/
def radians (x : ℝ) : ℝ := x * (Real.pi / 180)

/-- `math.atan2` (C99/IEEE semantics; `atan2 0 0 = 0`). -/
def atan2 (y x : ℝ) : ℝ :=
  if 0 < x then Real.arctan (y / x)
  else if x < 0 then
    (if 0 ≤ y then Real.arctan (y / x) + Real.pi else Real.arctan (y / x) - Real.pi)
  else if 0 < y then Real.pi / 2
  else if y < 0 then -(Real.pi / 2)
  else 0

/-- The local variable `a` of the source's Haversine formula. -/
def haversine_a (lat1 lon1 lat2 lon2 : ℝ) : ℝ :=
  Real.sin ((radians lat2 - radians lat1) / 2) ^ 2 +
    Real.cos (radians lat1) * Real.cos (radians lat2) *
      Real.sin ((radians lon2 - radians lon1) / 2) ^ 2

/-- `RecommendationService.calculate_distance` (Earth radius 6371 km). -/
def calculate_distance (lat1 lon1 lat2 lon2 : ℝ) : ℝ :=
  6371 * (2 * atan2 (Real.sqrt (haversine_a lat1 lon1 lat2 lon2))
    (Real.sqrt (1 - haversine_a lat1 lon1 lat2 lon2)))

end

lemma sin_half_sq (x : ℝ) : Real.sin (x / 2) ^ 2 = 1 / 2 - Real.cos x / 2 := by
  have h := Real.sin_sq_eq_half_sub (x / 2)
  rwa [show 2 * (x / 2) = x by ring] at h

lemma cos_mul_cos (x y : ℝ) :
    Real.cos x * Real.cos y = (Real.cos (x - y) + Real.cos (x + y)) / 2 := by
  rw [Real.cos_sub, Real.cos_add]
  ring

lemma haversine_a_self (lat lon : ℝ) : haversine_a lat lon lat lon = 0 := by
  simp [haversine_a]

lemma haversine_a_symm (lat1 lon1 lat2 lon2 : ℝ) :
    haversine_a lat2 lon2 lat1 lon1 = haversine_a lat1 lon1 lat2 lon2 := by
  unfold haversine_a
  rw [show (radians lat1 - radians lat2) / 2 = -((radians lat2 - radians lat1) / 2) by ring,
    show (radians lon1 - radians lon2) / 2 = -((radians lon2 - radians lon1) / 2) by ring,
    Real.sin_neg, Real.sin_neg, neg_sq, neg_sq, mul_comm (Real.cos (radians lat2))]

/-- The quantity `a` of the Haversine formula stays in `[0, 1]` for ALL real
inputs (also out-of-range coordinates), so `math.sqrt(a)` and
`math.sqrt(1 - a)` never receive a negative argument and the source function
is total. -/
lemma haversine_core_bounds (x y s : ℝ) (hs0 : 0 ≤ s) (hs1 : s ≤ 1) :
    0 ≤ Real.sin ((y - x) / 2) ^ 2 + Real.cos x * Real.cos y * s ∧
      Real.sin ((y - x) / 2) ^ 2 + Real.cos x * Real.cos y * s ≤ 1 := by
  have hA0 : 0 ≤ Real.sin ((y - x) / 2) ^ 2 := sq_nonneg _
  have hA1 : Real.sin ((y - x) / 2) ^ 2 ≤ 1 := Real.sin_sq_le_one _
  have hsum : Real.sin ((y - x) / 2) ^ 2 + Real.cos x * Real.cos y =
      1 / 2 + Real.cos (x + y) / 2 := by
    rw [sin_half_sq (y - x), cos_mul_cos x y, show x - y = -(y - x) by ring, Real.cos_neg]
    ring
  have hk0 : 0 ≤ Real.sin ((y - x) / 2) ^ 2 + Real.cos x * Real.cos y := by
    rw [hsum]
    have := Real.neg_one_le_cos (x + y)
    linarith
  have hk1 : Real.sin ((y - x) / 2) ^ 2 + Real.cos x * Real.cos y ≤ 1 := by
    rw [hsum]
    have := Real.cos_le_one (x + y)
    linarith
  have expand : Real.sin ((y - x) / 2) ^ 2 + Real.cos x * Real.cos y * s =
      (1 - s) * Real.sin ((y - x) / 2) ^ 2 +
        s * (Real.sin ((y - x) / 2) ^ 2 + Real.cos x * Real.cos y) := by ring
  constructor
  · rw [expand]
    exact add_nonneg (mul_nonneg (by linarith) hA0) (mul_nonneg hs0 hk0)
  · rw [expand]
    have h1 : (1 - s) * Real.sin ((y - x) / 2) ^ 2 ≤ (1 - s) * 1 :=
      mul_le_mul_of_nonneg_left hA1 (by linarith)
    have h2 : s * (Real.sin ((y - x) / 2) ^ 2 + Real.cos x * Real.cos y) ≤ s * 1 :=
      mul_le_mul_of_nonneg_left hk1 hs0
    linarith

lemma haversine_a_bounds (lat1 lon1 lat2 lon2 : ℝ) :
    0 ≤ haversine_a lat1 lon1 lat2 lon2 ∧ haversine_a lat1 lon1 lat2 lon2 ≤ 1 :=
  haversine_core_bounds (radians lat1) (radians lat2)
    (Real.sin ((radians lon2 - radians lon1) / 2) ^ 2) (sq_nonneg _) (Real.sin_sq_le_one _)

lemma calculate_distance_self (lat lon : ℝ) : calculate_distance lat lon lat lon = 0 := by
  unfold calculate_distance
  rw [haversine_a_self]
  norm_num [atan2, Real.sqrt_one]

lemma calculate_distance_symm (lat1 lon1 lat2 lon2 : ℝ) :
    calculate_distance lat1 lon1 lat2 lon2 = calculate_distance lat2 lon2 lat1 lon1 := by
  unfold calculate_distance
  rw [haversine_a_symm]

/-! ### RecommendationRanker: `RecommendationService.get_recommendations`

The ranker is embedded over ℚ and parametrised by the distance backend
`dist : ℚ → ℚ → ℚ → ℚ → ℚ` standing for `calculate_distance` (which is a
real-valued transcendental function); every ranking claim is quantified over
this backend, whose value never influences the control flow being claimed.
The SQLAlchemy query filters are modelled as a list filter with SQL NULL
semantics (a NULL column never satisfies a comparison filter). -/

/-- Python truthiness of an optional float (`None` and `0` are falsy). -/
def optTruthy (o : Option ℚ) : Bool :=
  match o with
  | none => false
  | some x => if x = 0 then false else true

/-- Python `x or dflt` on an optional float (`None` and `0` give `dflt`). -/
def orDefault (o : Option ℚ) (dflt : ℚ) : ℚ :=
  match o with
  | none => dflt
  | some x => if x = 0 then dflt else x

structure Destination where
  id : ℕ
  average_cost_per_day : Option ℚ := none
  budget_tier : Option String := none
  rating : Option ℚ := none
  review_count : Option ℕ := none
  popularity_score : Option ℚ := none
  latitude : Option ℚ := none
  longitude : Option ℚ := none
  category : Option String := none
  tags : Option String := none
deriving DecidableEq

/-- Substring test on character lists (SQL `LIKE '%needle%'`). -/
def containsSub (needle : List Char) : List Char → Bool
  | [] => needle.isEmpty
  | c :: rest => needle.isPrefixOf (c :: rest) || containsSub needle rest

/-- SQL `column LIKE '%tag%'`. -/
def likeContains (hay needle : String) : Bool := containsSub needle.data hay.data

/-- The SQLAlchemy query filters of `get_recommendations` (budget range,
categories, minimum rating, tag substrings) as one predicate. An empty
`categories`/`tags` list is falsy in Python, so the filter is not applied. -/
def passes_query (budget_min budget_max : Option ℚ) (categories tags : List String)
    (min_rating : Option ℚ) (d : Destination) : Bool :=
  (match budget_min with
   | none => true
   | some v => match d.average_cost_per_day with
     | none => false
     | some c => decide (v ≤ c)) &&
  (match budget_max with
   | none => true
   | some v => match d.average_cost_per_day with
     | none => false
     | some c => decide (c ≤ v)) &&
  (categories.isEmpty ||
   match d.category with
   | none => false
   | some cat => categories.contains cat) &&
  (match min_rating with
   | none => true
   | some v => match d.rating with
     | none => false
     | some r => decide (v ≤ r)) &&
  (tags.isEmpty ||
   match d.tags with
   | none => false
   | some ts => tags.any (fun t => likeContains ts t))

/-- The `distance` local of the per-destination loop: computed only when both
user coordinates are not `None` and both destination coordinates are truthy
(`dest.latitude and dest.longitude`, so a 0 coordinate blocks it). -/
def candidate_distance (dist : ℚ → ℚ → ℚ → ℚ → ℚ)
    (user_lat user_lon : Option ℚ) (d : Destination) : Option ℚ :=
  match user_lat, user_lon, d.latitude, d.longitude with
  | some ula, some ulo, some dla, some dlo =>
      if dla = 0 ∨ dlo = 0 then none else some (dist ula ulo dla dlo)
  | _, _, _, _ => none

/-- The two `continue` conditions of the loop: over the max-distance filter
(`max_distance_km and distance > max_distance_km`) or over missing/zero
destination coordinates when distance filtering is requested. -/
def excluded (max_distance_km : Option ℚ) (d : Destination) :
    Option ℚ → Bool
  | some dv => optTruthy max_distance_km && decide (max_distance_km.getD 0 < dv)
  | none => optTruthy max_distance_km && (!optTruthy d.latitude || !optTruthy d.longitude)

/-- `dest.budget_tier or 'mid-range'` (empty string is falsy). -/
def tier_of (d : Destination) : String :=
  match d.budget_tier with
  | some t => if t = "" then "mid-range" else t
  | none => "mid-range"

structure Recommendation where
  id : ℕ
  rating : Option ℚ
  average_cost_per_day : Option ℚ
  distance_km : Option ℚ
  recommendation_score : ℚ
  budget_breakdown : Option BudgetBreakdown
  total_trip_cost : Option ℚ
  estimated_cost_per_day : Option ℚ
deriving DecidableEq

/-- Builds the recommendation dict for a non-skipped destination: budget
breakdown (only when a distance was computed and the destination has a truthy
daily cost), composite score, and the output fields the claims are about. -/
def build_recommendation (max_distance_km : Option ℚ) (trip_duration_days : ℤ)
    (d : Destination) (distance : Option ℚ) : Recommendation :=
  let budget_breakdown : Option BudgetBreakdown :=
    match distance with
    | some dv =>
        if optTruthy d.average_cost_per_day then
          some (calculate_comprehensive_budget dv trip_duration_days
            (d.average_cost_per_day.getD 0) (tier_of d))
        else none
    | none => none
  let total_trip_cost : Option ℚ := budget_breakdown.map (·.total)
  let affordability : ℚ :=
    match total_trip_cost with
    | some t =>
        if t ≠ 0 then max 0 ((5000 - t) / 5000) * 5 * 0.2
        else (5.0 - orDefault d.average_cost_per_day 100 / 50) * 0.2
    | none => (5.0 - orDefault d.average_cost_per_day 100 / 50) * 0.2
  let distance_bonus : ℚ :=
    match distance with
    | some dv =>
        if optTruthy max_distance_km then
          max 0 ((max_distance_km.getD 0 - dv) / max_distance_km.getD 0) * 0.1
        else 0
    | none => 0
  let score : ℚ :=
    orDefault d.popularity_score 0 * 0.4 +
    orDefault d.rating 3.0 * 0.3 +
    (d.review_count.getD 0 : ℚ) * 0.01 +
    affordability + distance_bonus
  { id := d.id
    rating := d.rating
    average_cost_per_day := d.average_cost_per_day
    distance_km :=
      match distance with
      | some dv => if dv = 0 then none else some (round1 dv)
      | none => none
    recommendation_score := round2 score
    budget_breakdown := budget_breakdown
    total_trip_cost := total_trip_cost
    estimated_cost_per_day := budget_breakdown.map (·.per_day_average) }

/-- One iteration of the destination loop: `none` when the destination is
skipped by a `continue`. -/
def process_destination (dist : ℚ → ℚ → ℚ → ℚ → ℚ)
    (user_lat user_lon max_distance_km : Option ℚ) (trip_duration_days : ℤ)
    (d : Destination) : Option Recommendation :=
  let distance := candidate_distance dist user_lat user_lon d
  if excluded max_distance_km d distance then none
  else some (build_recommendation max_distance_km trip_duration_days d distance)

/-- `x['distance_km'] or float('inf')`: `None` (and a 0 value) sort as +∞,
encoded as `none`. -/
def distance_key (r : Recommendation) : Option ℚ :=
  match r.distance_km with
  | some q => if q = 0 then none else some q
  | none => none

/-- `x['average_cost_per_day'] or float('inf')`. -/
def cost_key (r : Recommendation) : Option ℚ :=
  match r.average_cost_per_day with
  | some q => if q = 0 then none else some q
  | none => none

/-- Order on `Option ℚ` where `none` is +∞. -/
def leInf (a b : Option ℚ) : Bool :=
  match a, b with
  | _, none => true
  | none, some _ => false
  | some x, some y => decide (x ≤ y)

/-- The comparator selected by the `sort_by` branch of the source (a Python
`list.sort` with `reverse=True` is a stable sort under the flipped
comparator). `sort_by='distance'` only sorts by distance when both user
coordinates are truthy; otherwise the final `else` (popularity) applies. -/
def sort_le (sort_by : String) (user_lat user_lon : Option ℚ)
    (a b : Recommendation) : Bool :=
  if sort_by = "distance" ∧ optTruthy user_lat = true ∧ optTruthy user_lon = true then
    leInf (distance_key a) (distance_key b)
  else if sort_by = "rating" then
    decide (orDefault b.rating 0 ≤ orDefault a.rating 0)
  else if sort_by = "cost" then
    leInf (cost_key a) (cost_key b)
  else
    decide (b.recommendation_score ≤ a.recommendation_score)

def sort_recommendations (sort_by : String) (user_lat user_lon : Option ℚ)
    (l : List Recommendation) : List Recommendation :=
  l.mergeSort (sort_le sort_by user_lat user_lon)

/-- The scored recommendation list before sorting and truncation. -/
def recs_of (dist : ℚ → ℚ → ℚ → ℚ → ℚ)
    (user_lat user_lon budget_min budget_max : Option ℚ)
    (categories tags : List String) (min_rating max_distance_km : Option ℚ)
    (trip_duration_days : ℤ) (destinations : List Destination) :
    List Recommendation :=
  (destinations.filter (passes_query budget_min budget_max categories tags min_rating)).filterMap
    (process_destination dist user_lat user_lon max_distance_km trip_duration_days)

/-- `RecommendationService.get_recommendations`: filter, score, sort, then
truncate to `limit`. -/
def get_recommendations (dist : ℚ → ℚ → ℚ → ℚ → ℚ)
    (user_lat user_lon budget_min budget_max : Option ℚ)
    (categories tags : List String) (min_rating max_distance_km : Option ℚ)
    (limit : ℕ := 10) (sort_by : String := "popularity")
    (trip_duration_days : ℤ := 3) (destinations : List Destination) :
    List Recommendation :=
  (sort_recommendations sort_by user_lat user_lon
    (recs_of dist user_lat user_lon budget_min budget_max categories tags
      min_rating max_distance_km trip_duration_days destinations)).take limit

/-! ### Order facts about the sort comparators -/

lemma leInf_trans {a b c : Option ℚ} (h1 : leInf a b = true) (h2 : leInf b c = true) :
    leInf a c = true := by
  cases a <;> cases b <;> cases c <;> simp_all [leInf]
  linarith

lemma leInf_total (a b : Option ℚ) : (leInf a b || leInf b a) = true := by
  cases a <;> cases b <;> simp [leInf]
  exact le_total _ _

lemma sort_le_trans (sort_by : String) (ulat ulon : Option ℚ) (a b c : Recommendation)
    (h1 : sort_le sort_by ulat ulon a b = true) (h2 : sort_le sort_by ulat ulon b c = true) :
    sort_le sort_by ulat ulon a c = true := by
  unfold sort_le at *
  split_ifs at * with hc1 hc2 hc3
  · exact leInf_trans h1 h2
  · simp only [decide_eq_true_eq] at *
    linarith
  · exact leInf_trans h1 h2
  · simp only [decide_eq_true_eq] at *
    linarith

lemma sort_le_total (sort_by : String) (ulat ulon : Option ℚ) (a b : Recommendation) :
    (sort_le sort_by ulat ulon a b || sort_le sort_by ulat ulon b a) = true := by
  unfold sort_le
  split_ifs with hc1 hc2 hc3
  · exact leInf_total _ _
  · simp only [Bool.or_eq_true, decide_eq_true_eq]
    exact le_total _ _
  · exact leInf_total _ _
  · simp only [Bool.or_eq_true, decide_eq_true_eq]
    exact le_total _ _

/-- Evaluation of a stable two-element merge sort. -/
lemma mergeSort_pair {α : Type} (le : α → α → Bool) (a b : α) :
    [a, b].mergeSort le = if le a b then [a, b] else [b, a] := by
  cases h : le a b <;> simp [List.mergeSort, List.merge, h]

/-- Dropping list elements on which a `filterMap` function vanishes does not
change the result. -/
lemma filterMap_filter_eq {α β : Type} (f : α → Option β) (q : α → Bool)
    (h : ∀ a, q a = false → f a = none) :
    ∀ l : List α, l.filterMap f = (l.filter q).filterMap f := by
  intro l
  induction l with
  | nil => rfl
  | cons x xs ih =>
    cases hq : q x
    · have hfx : f x = none := h x hq
      rw [List.filter_cons_of_neg (by simp [hq])]
      simp [List.filterMap_cons, hfx, ih]
    · rw [List.filter_cons_of_pos (by simp [hq])]
      simp only [List.filterMap_cons]
      rw [ih]

/-- When distance filtering is requested (truthy `max_distance_km`), a
destination with a missing (NULL) coordinate is skipped by the loop. -/
lemma process_destination_none_of_missing_coords (dist : ℚ → ℚ → ℚ → ℚ → ℚ)
    (ulat ulon mdk : Option ℚ) (n : ℤ) (d : Destination)
    (hm : optTruthy mdk = true)
    (hc : d.latitude = none ∨ d.longitude = none) :
    process_destination dist ulat ulon mdk n d = none := by
  have hdist : candidate_distance dist ulat ulon d = none := by
    unfold candidate_distance
    rcases hc with hc | hc <;> rw [hc] <;>
      cases ulat <;> cases ulon <;> cases hl : d.latitude <;> cases hl2 : d.longitude <;> rfl
  have hex : excluded mdk d none = true := by
    unfold excluded
    rw [hm, Bool.true_and]
    rcases hc with hc | hc <;> rw [hc] <;> simp [optTruthy]
  simp [process_destination, hdist, hex]

/-- A destination with a coordinate equal to 0 is treated exactly like one
with a missing coordinate: no distance is computed, and with truthy
`max_distance_km` it is skipped. -/
lemma process_destination_zero_coord (dist : ℚ → ℚ → ℚ → ℚ → ℚ)
    (ulat ulon mdk : Option ℚ) (n : ℤ) (d : Destination)
    (hc : d.latitude = some 0 ∨ d.longitude = some 0) :
    candidate_distance dist ulat ulon d = none ∧
      (optTruthy mdk = true → process_destination dist ulat ulon mdk n d = none) := by
  have hdist : candidate_distance dist ulat ulon d = none := by
    unfold candidate_distance
    rcases hc with hc | hc <;> rw [hc] <;>
      cases ulat <;> cases ulon <;> cases hl : d.latitude <;> cases hl2 : d.longitude <;>
      simp
  refine ⟨hdist, fun hm => ?_⟩
  have hex : excluded mdk d none = true := by
    unfold excluded
    rw [hm, Bool.true_and]
    rcases hc with hc | hc <;> rw [hc] <;> simp [optTruthy]
  simp [process_destination, hdist, hex]

/-! ### The trip-cost endpoint path: `CostCalculationService`

`calculate_daily_costs` and `calculate_trip_costs`, embedded with the
destination's cost-of-living index (the result of
`get_destination_cost_index`, a pure table lookup) as a parameter, and the
optional coordinate pair replaced by the optional distance it produces; the
billing structure under claim does not depend on either lookup. -/

namespace CostService

/-- `CostCalculationService.BUDGET_MULTIPLIERS.get(budget.lower(), 1.0)`. -/
def BUDGET_MULTIPLIERS (b : String) : ℚ :=
  if b = "budget" then 0.6
  else if b = "mid-range" then 1.0
  else if b = "luxury" then 2.5
  else 1.0

structure DailyCosts where
  accommodation : ℤ
  food : ℤ
  local_transport : ℤ
  activities : ℤ
  total : ℤ
deriving DecidableEq

/-- `CostCalculationService.calculate_daily_costs`: each base daily cost
(INR, Mumbai index 100) scaled by the cost index and budget multiplier and
rounded to an integer. -/
def calculate_daily_costs (cost_index : ℚ) (budget : String) : DailyCosts :=
  let m := BUDGET_MULTIPLIERS budget.toLower
  let acc := pyRound (2000 * cost_index * m)
  let food := pyRound (800 * cost_index * m)
  let lt := pyRound (400 * cost_index * m)
  let act := pyRound (500 * cost_index * m)
  { accommodation := acc, food := food, local_transport := lt, activities := act
    total := acc + food + lt + act }

/-- The `recommended_cost` of `CostCalculationService.calculate_transportation_cost`
(the locale-flavoured tier table): the only part of that table consumed by
`calculate_trip_costs`. -/
def recommended_transport_cost (d : ℚ) : ℚ :=
  if d < 20 then max 50 (d * 15)
  else if d < 100 then max 150 (d * 2)
  else if d < 500 then max 600 (d * 1.8)
  else if d < 1500 then max 3500 (min 12000 (d * 4))
  else min 50000 (max 5000 (d * 3.5))

structure TripCostBreakdown where
  accommodation : ℤ
  food : ℤ
  transportation_local : ℤ
  transportation_to_destination : ℤ
  activities : ℤ
  miscellaneous : ℤ
  total : ℤ
deriving DecidableEq

structure TripCosts where
  duration_days : ℤ
  travelers : ℤ
  cost_breakdown : TripCostBreakdown
  per_person_cost : ℤ
  accommodation_per_night : ℤ
  food_per_day : ℤ
  local_transport_per_day : ℤ
  activities_per_day : ℤ
deriving DecidableEq

/-- `CostCalculationService.calculate_trip_costs`. `distance_km` is `some d`
when all four coordinates were supplied and truthy (`none` gives the
`transportation_to_dest = 0` path). The `round(...)` re-applications of the
source on already-integer category totals are identities and are omitted. -/
def calculate_trip_costs (cost_index : ℚ) (budget : String)
    (duration_days travelers : ℤ) (distance_km : Option ℚ) : TripCosts :=
  let daily := calculate_daily_costs cost_index budget
  let accommodation_nights := max 1 (duration_days - 1)
  let total_accommodation := daily.accommodation * accommodation_nights * travelers
  let total_food := daily.food * duration_days * travelers
  let total_local := daily.local_transport * duration_days * travelers
  let total_activities := daily.activities * duration_days * travelers
  let transportation_to_dest : ℤ :=
    match distance_km with
    | some dkm => pyRound (recommended_transport_cost dkm * 2 * (travelers : ℚ))
    | none => 0
  let misc := pyRound
    (((total_accommodation + total_food + total_local + total_activities : ℤ) : ℚ) * 0.1)
  let total := total_accommodation + total_food + total_local + total_activities +
    transportation_to_dest + misc
  { duration_days := duration_days
    travelers := travelers
    cost_breakdown :=
      { accommodation := total_accommodation
        food := total_food
        transportation_local := total_local
        transportation_to_destination := transportation_to_dest
        activities := total_activities
        miscellaneous := misc
        total := total }
    per_person_cost := if 0 < travelers then pyRound ((total : ℚ) / (travelers : ℚ)) else 0
    accommodation_per_night := daily.accommodation
    food_per_day := daily.food
    local_transport_per_day := daily.local_transport
    activities_per_day := daily.activities }

end CostService

/-! ### Spec-side definition for the refinement claim C1 -/

/-- BudgetSynthesizer steps 1-11 written from the spec's wording (the
multiplier maps `{budget: 0.6, mid-range: 1.0, luxury: 2.5}[budgetTier]` and
`{budget: 0.7, mid-range: 1.0, luxury: 2.0}[budgetTier]`; the map lookup is
only specified on the three documented tiers — the final `else` branch is
unreachable under C1's tier hypothesis). Every monetary field is rounded to
2 decimals at the point of output; `perDayAverage` is 0 when
`durationDays ≤ 0`. -/
def synthesize_spec (distanceKm : ℚ) (durationDays : ℤ) (destinationDailyCost : ℚ)
    (budgetTier : String) : BudgetBreakdown :=
  let transport := (calculate_transportation_cost distanceKm).recommended * 2
  let accommodationMultiplier : ℚ :=
    if budgetTier = "budget" then 0.6
    else if budgetTier = "mid-range" then 1.0
    else if budgetTier = "luxury" then 2.5
    else 1.0
  let foodMultiplier : ℚ :=
    if budgetTier = "budget" then 0.7
    else if budgetTier = "mid-range" then 1.0
    else if budgetTier = "luxury" then 2.0
    else 1.0
  let accommodationPerNight := destinationDailyCost * 0.4 * accommodationMultiplier
  let accommodation := accommodationPerNight * (durationDays : ℚ)
  let foodPerDay := destinationDailyCost * 0.35 * foodMultiplier
  let food := foodPerDay * (durationDays : ℚ)
  let localTransportPerDay := destinationDailyCost * 0.15 * accommodationMultiplier
  let localTransport := localTransportPerDay * (durationDays : ℚ)
  let activitiesPerDay := destinationDailyCost * 0.10
  let activities := activitiesPerDay * (durationDays : ℚ)
  let misc := (food + activities) * 0.15
  let subtotal := transport + accommodation + food + localTransport + activities + misc
  let insurance := subtotal * 0.05
  let contingency := (subtotal + insurance) * 0.10
  let total := subtotal + insurance + contingency
  { transportation := round2 transport
    transportation_options := calculate_transportation_cost distanceKm
    accommodation := round2 accommodation
    accommodation_per_night := round2 accommodationPerNight
    food := round2 food
    food_per_day := round2 foodPerDay
    local_transport := round2 localTransport
    activities := round2 activities
    miscellaneous := round2 misc
    insurance := round2 insurance
    contingency := round2 contingency
    subtotal := round2 subtotal
    total := round2 total
    per_day_average := if 0 < durationDays then round2 (total / (durationDays : ℚ)) else 0 }

/-! ### Claim theorems -/

/-- C1: for every distance `d ≥ 0`, duration `n`, daily cost `c` and budget
tier `t`, `calculate_comprehensive_budget` computes the breakdown exactly by
the spec's eleven steps: round-trip transport, tier-multiplied accommodation,
food, local transport, activities, 15% misc on food+activities, 5% insurance
on the subtotal, 10% contingency, total, and a guarded per-day average which
is 0 for `n ≤ 0` (no crash); all monetary fields rounded to 2 decimals at
output. -/
theorem C1_synthesize_follows_spec_steps (d : ℚ) (n : ℤ) (c : ℚ) (t : String)
    (_hd : 0 ≤ d) (ht : t = "budget" ∨ t = "mid-range" ∨ t = "luxury") :
    calculate_comprehensive_budget d n c t = synthesize_spec d n c t := by
  rcases ht with h | h | h <;> subst h <;> rfl

theorem C1_synthesize_follows_spec_steps_witness :
    (0 : ℚ) ≤ 100 ∧
      ("budget" = "budget" ∨ "budget" = "mid-range" ∨ "budget" = "luxury") ∧
      calculate_comprehensive_budget 100 3 250 "budget" = synthesize_spec 100 3 250 "budget" :=
  ⟨by norm_num, Or.inl rfl,
    C1_synthesize_follows_spec_steps 100 3 250 "budget" (by norm_num) (Or.inl rfl)⟩

/-- C2: for every distance `d ≥ 0`, `calculate_transportation_cost` offers
exactly the modes of the half-open band containing `d`, with each cost given
by the band's formula rounded to 2 decimals, the recommended cost being the
bus cost for `d < 300` and the budget-flight cost for `d ≥ 300`; in
particular the bus cost at 0 is 0 and the train cost at 100 is 50. -/
theorem C2_transport_bands (d : ℚ) (_hd : 0 ≤ d) :
    (d < 50 → calculate_transportation_cost d =
      { bus := some (round2 (0.50 * d)), taxi := some (round2 (1.50 * d)),
        recommended := round2 (0.50 * d) }) ∧
    (50 ≤ d → d < 300 → calculate_transportation_cost d =
      { bus := some (round2 (50 + 0.15 * (d - 50))),
        train := some (round2 (40 + 0.20 * (d - 50))),
        taxi := some (round2 (1.20 * d)),
        recommended := round2 (50 + 0.15 * (d - 50)) }) ∧
    (300 ≤ d → d < 1000 → calculate_transportation_cost d =
      { train := some (round2 (80 + 0.12 * (d - 300))),
        budget_flight := some (round2 (100 + 0.25 * (d - 300))),
        standard_flight := some (round2 (150 + 0.35 * (d - 300))),
        recommended := round2 (100 + 0.25 * (d - 300)) }) ∧
    (1000 ≤ d → d < 3000 → calculate_transportation_cost d =
      { budget_flight := some (round2 (250 + 0.15 * (d - 1000))),
        standard_flight := some (round2 (400 + 0.20 * (d - 1000))),
        premium_flight := some (round2 (800 + 0.30 * (d - 1000))),
        recommended := round2 (250 + 0.15 * (d - 1000)) }) ∧
    (3000 ≤ d → calculate_transportation_cost d =
      { budget_flight := some (round2 (550 + 0.08 * (d - 3000))),
        standard_flight := some (round2 (900 + 0.12 * (d - 3000))),
        business_flight := some (round2 (2000 + 0.25 * (d - 3000))),
        recommended := round2 (550 + 0.08 * (d - 3000)) }) ∧
    (calculate_transportation_cost 0).bus = some 0 ∧
    (calculate_transportation_cost 100).train = some 50 := by
  refine ⟨?_, ?_, ?_, ?_, ?_, ?_, ?_⟩
  rotate_left 5
  · rw [calculate_transportation_cost, if_pos (by norm_num : (0:ℚ) < 50)]
    norm_num [round2, pyRound, round_eq]
  · rw [calculate_transportation_cost, if_neg (by norm_num : ¬ (100:ℚ) < 50),
      if_pos (by norm_num : (100:ℚ) < 300)]
    norm_num [round2, pyRound, round_eq]
  · intro h1
    rw [calculate_transportation_cost, if_pos h1,
      mul_comm d (0.50 : ℚ), mul_comm d (1.50 : ℚ)]
  · intro h1 h2
    rw [calculate_transportation_cost, if_neg (not_lt.2 h1), if_pos h2,
      mul_comm (d - 50) (0.15 : ℚ), mul_comm (d - 50) (0.20 : ℚ), mul_comm d (1.20 : ℚ)]
  · intro h1 h2
    rw [calculate_transportation_cost, if_neg (not_lt.2 (by linarith : (50:ℚ) ≤ d)),
      if_neg (not_lt.2 h1), if_pos h2,
      mul_comm (d - 300) (0.12 : ℚ), mul_comm (d - 300) (0.25 : ℚ),
      mul_comm (d - 300) (0.35 : ℚ)]
  · intro h1 h2
    rw [calculate_transportation_cost, if_neg (not_lt.2 (by linarith : (50:ℚ) ≤ d)),
      if_neg (not_lt.2 (by linarith : (300:ℚ) ≤ d)), if_neg (not_lt.2 h1), if_pos h2,
      mul_comm (d - 1000) (0.15 : ℚ), mul_comm (d - 1000) (0.20 : ℚ),
      mul_comm (d - 1000) (0.30 : ℚ)]
  · intro h1
    rw [calculate_transportation_cost, if_neg (not_lt.2 (by linarith : (50:ℚ) ≤ d)),
      if_neg (not_lt.2 (by linarith : (300:ℚ) ≤ d)),
      if_neg (not_lt.2 (by linarith : (1000:ℚ) ≤ d)), if_neg (not_lt.2 h1),
      mul_comm (d - 3000) (0.08 : ℚ), mul_comm (d - 3000) (0.12 : ℚ),
      mul_comm (d - 3000) (0.25 : ℚ)]

theorem C2_transport_bands_witness :
    (0 : ℚ) ≤ 100 ∧
      ((100 : ℚ) < 50 → calculate_transportation_cost 100 =
        { bus := some (round2 (0.50 * 100)), taxi := some (round2 (1.50 * 100)),
          recommended := round2 (0.50 * 100) }) ∧
      (calculate_transportation_cost 100).train = some 50 :=
  ⟨by norm_num, (C2_transport_bands 100 (by norm_num)).1,
    (C2_transport_bands 100 (by norm_num)).2.2.2.2.2.2⟩

/-- C5 counterexample: `calculate_comprehensive_budget` does NOT reject an
unknown budget tier; at the concrete tier `'platinum'` it returns a normal
breakdown, identical to the silently defaulted mid-range one (multiplier
1.0 via `.get(budget_tier, 1.0)`). -/
theorem C5_counterexample :
    calculate_comprehensive_budget 0 3 100 "platinum" =
      calculate_comprehensive_budget 0 3 100 "mid-range" ∧
    (calculate_comprehensive_budget 0 3 100 "platinum").total = 369.89 := by
  constructor
  · rfl
  · have h1 : accommodation_multiplier "platinum" = 1.0 := rfl
    have h2 : food_multiplier "platinum" = 1.0 := rfl
    have h3 : (calculate_transportation_cost 0).recommended = 0 := by
      rw [calculate_transportation_cost, if_pos (by norm_num : (0:ℚ) < 50)]
      norm_num [round2, pyRound, round_eq]
    simp only [calculate_comprehensive_budget, h1, h2, h3]
    norm_num [round2, pyRound, round_eq]

/-- C5 as amended: the core never rejects an unknown budget tier; for every
tier outside `{budget, mid-range, luxury}` both multiplier lookups silently
default to 1.0, so the breakdown equals the mid-range one. (The documented
defaults — missing rating 3.0, missing tier mid-range, non-positive duration
giving per-day average 0 — are the subject of C1/C4 and hold.) -/
theorem C5_unknown_tier_silently_defaults (d : ℚ) (n : ℤ) (c : ℚ) (t : String)
    (h1 : t ≠ "budget") (h2 : t ≠ "mid-range") (h3 : t ≠ "luxury") :
    calculate_comprehensive_budget d n c t = calculate_comprehensive_budget d n c "mid-range" := by
  have ham : accommodation_multiplier t = 1.0 := by
    unfold accommodation_multiplier
    rw [if_neg h1, if_neg h2, if_neg h3]
  have hfm : food_multiplier t = 1.0 := by
    unfold food_multiplier
    rw [if_neg h1, if_neg h2, if_neg h3]
  have ham2 : accommodation_multiplier "mid-range" = 1.0 := rfl
  have hfm2 : food_multiplier "mid-range" = 1.0 := rfl
  simp only [calculate_comprehensive_budget, ham, hfm, ham2, hfm2]

theorem C5_unknown_tier_silently_defaults_witness :
    (("platinum" : String) ≠ "budget" ∧ ("platinum" : String) ≠ "mid-range" ∧
      ("platinum" : String) ≠ "luxury") ∧
      calculate_comprehensive_budget 5 4 80 "platinum" =
        calculate_comprehensive_budget 5 4 80 "mid-range" :=
  ⟨⟨by decide, by decide, by decide⟩,
    C5_unknown_tier_silently_defaults 5 4 80 "platinum" (by decide) (by decide) (by decide)⟩

lemma accommodation_multiplier_pos (t : String) : 0 < accommodation_multiplier t := by
  unfold accommodation_multiplier
  split_ifs <;> norm_num

lemma food_multiplier_pos (t : String) : 0 < food_multiplier t := by
  unfold food_multiplier
  split_ifs <;> norm_num

lemma grand_total_sub (d : ℚ) (n : ℤ) (c1 c2 : ℚ) (t : String) :
    grand_total d n c2 t - grand_total d n c1 t =
      (c2 - c1) * (n : ℚ) *
        (0.55 * accommodation_multiplier t + 0.4025 * food_multiplier t + 0.115) * 1.155 := by
  simp only [grand_total]
  ring

/-- C7 counterexample: the rounded `total` output is NOT strictly increasing
in the daily cost — at distance 0, 3 days, mid-range tier, the daily costs
100 and 100.0001 give the same 2-decimal total. -/
theorem C7_counterexample :
    (100 : ℚ) < 100 + 1 / 10000 ∧
      (calculate_comprehensive_budget 0 3 100 "mid-range").total =
        (calculate_comprehensive_budget 0 3 (100 + 1 / 10000) "mid-range").total := by
  constructor
  · norm_num
  · have h1 : accommodation_multiplier "mid-range" = 1.0 := rfl
    have h2 : food_multiplier "mid-range" = 1.0 := rfl
    have h3 : (calculate_transportation_cost 0).recommended = 0 := by
      rw [calculate_transportation_cost, if_pos (by norm_num : (0:ℚ) < 50)]
      norm_num [round2, pyRound, round_eq]
    simp only [calculate_comprehensive_budget, h1, h2, h3]
    norm_num [round2, pyRound, round_eq]

/-- C7 as amended: the concrete total
`synthesize(0, 3, 100, 'mid-range').total` is positive, and for fixed
distance, positive duration and tier the total is monotone (non-decreasing)
in the daily cost, the pre-rounding grand total being strictly increasing;
only the final rounding to 2 decimals prevents strictness of the output
field. -/
theorem C7_total_positive_and_monotone :
    (calculate_comprehensive_budget 0 3 100 "mid-range").total > 0 ∧
    (∀ (d : ℚ) (n : ℤ) (t : String) (c1 c2 : ℚ), 0 < n → c1 ≤ c2 →
      (calculate_comprehensive_budget d n c1 t).total ≤
        (calculate_comprehensive_budget d n c2 t).total) ∧
    (∀ (d : ℚ) (n : ℤ) (t : String) (c1 c2 : ℚ), 0 < n → c1 < c2 →
      grand_total d n c1 t < grand_total d n c2 t) := by
  refine ⟨?_, ?_, ?_⟩
  · have h1 : accommodation_multiplier "mid-range" = 1.0 := rfl
    have h2 : food_multiplier "mid-range" = 1.0 := rfl
    have h3 : (calculate_transportation_cost 0).recommended = 0 := by
      rw [calculate_transportation_cost, if_pos (by norm_num : (0:ℚ) < 50)]
      norm_num [round2, pyRound, round_eq]
    simp only [calculate_comprehensive_budget, h1, h2, h3]
    norm_num [round2, pyRound, round_eq]
  · intro d n t c1 c2 hn hc
    rw [total_eq_round2_grand_total, total_eq_round2_grand_total]
    apply round2_mono
    have hkey := grand_total_sub d n c1 c2 t
    have ham := accommodation_multiplier_pos t
    have hfm := food_multiplier_pos t
    have hn' : (0 : ℚ) < (n : ℚ) := by exact_mod_cast hn
    have hκ : (0 : ℚ) < 0.55 * accommodation_multiplier t + 0.4025 * food_multiplier t + 0.115 := by
      nlinarith
    have hprod : (0 : ℚ) ≤ (c2 - c1) * (n : ℚ) *
        (0.55 * accommodation_multiplier t + 0.4025 * food_multiplier t + 0.115) * 1.155 := by
      have := mul_nonneg (mul_nonneg (mul_nonneg (by linarith : (0:ℚ) ≤ c2 - c1) hn'.le) hκ.le)
        (by norm_num : (0:ℚ) ≤ (1.155 : ℚ))
      exact this
    linarith
  · intro d n t c1 c2 hn hc
    have hkey := grand_total_sub d n c1 c2 t
    have ham := accommodation_multiplier_pos t
    have hfm := food_multiplier_pos t
    have hn' : (0 : ℚ) < (n : ℚ) := by exact_mod_cast hn
    have hκ : (0 : ℚ) < 0.55 * accommodation_multiplier t + 0.4025 * food_multiplier t + 0.115 := by
      nlinarith
    have hprod : (0 : ℚ) < (c2 - c1) * (n : ℚ) *
        (0.55 * accommodation_multiplier t + 0.4025 * food_multiplier t + 0.115) * 1.155 := by
      have := mul_pos (mul_pos (mul_pos (by linarith : (0:ℚ) < c2 - c1) hn') hκ)
        (by norm_num : (0:ℚ) < (1.155 : ℚ))
      exact this
    linarith

theorem C7_total_positive_and_monotone_witness :
    ((0 : ℤ) < 3 ∧ (100 : ℚ) ≤ 200 ∧ (100 : ℚ) < 200) ∧
      (calculate_comprehensive_budget 7 3 100 "luxury").total ≤
        (calculate_comprehensive_budget 7 3 200 "luxury").total ∧
      grand_total 7 3 100 "luxury" < grand_total 7 3 200 "luxury" :=
  ⟨⟨by decide, by norm_num, by norm_num⟩,
    C7_total_positive_and_monotone.2.1 7 3 "luxury" 100 200 (by decide) (by norm_num),
    C7_total_positive_and_monotone.2.2 7 3 "luxury" 100 200 (by decide) (by norm_num)⟩

/-- C6: the Haversine distance is 0 on identical points and exactly symmetric
(hence symmetric within any tolerance, in particular 1e-6 relative); and for
ALL real inputs — including out-of-range coordinates — the intermediate `a`
stays within `[0, 1]`, so both square roots receive non-negative arguments
and the function is total with no error conditions. -/
theorem C6_distance_identity_symmetry_total :
    (∀ lat lon : ℝ, calculate_distance lat lon lat lon = 0) ∧
    (∀ lat1 lon1 lat2 lon2 : ℝ,
      calculate_distance lat1 lon1 lat2 lon2 = calculate_distance lat2 lon2 lat1 lon1) ∧
    (∀ lat1 lon1 lat2 lon2 : ℝ,
      0 ≤ haversine_a lat1 lon1 lat2 lon2 ∧ haversine_a lat1 lon1 lat2 lon2 ≤ 1) :=
  ⟨calculate_distance_self, calculate_distance_symm, haversine_a_bounds⟩

/-- C8: the trip-cost endpoint path bills accommodation per night with
`nights = max(1, durationDays - 1)`, bills food, local transport and
activities per day over the full duration (each times travellers), adds a
flat 10% miscellaneous surcharge on the sum of those four categories, and
its total is exactly those four plus destination transport plus the
surcharge — no insurance or contingency component; the category rates are
the fixed base rates (2000/800/400/500 INR) scaled by the destination's
cost-of-living index and the budget multiplier. -/
theorem C8_trip_cost_path (idx : ℚ) (budget : String) (n trav : ℤ) (dkm : Option ℚ) :
    (CostService.calculate_trip_costs idx budget n trav dkm).cost_breakdown.accommodation =
      (CostService.calculate_daily_costs idx budget).accommodation * max 1 (n - 1) * trav ∧
    (CostService.calculate_trip_costs idx budget n trav dkm).cost_breakdown.food =
      (CostService.calculate_daily_costs idx budget).food * n * trav ∧
    (CostService.calculate_trip_costs idx budget n trav dkm).cost_breakdown.transportation_local =
      (CostService.calculate_daily_costs idx budget).local_transport * n * trav ∧
    (CostService.calculate_trip_costs idx budget n trav dkm).cost_breakdown.activities =
      (CostService.calculate_daily_costs idx budget).activities * n * trav ∧
    (CostService.calculate_trip_costs idx budget n trav dkm).cost_breakdown.miscellaneous =
      pyRound ((((CostService.calculate_daily_costs idx budget).accommodation * max 1 (n - 1) * trav +
        (CostService.calculate_daily_costs idx budget).food * n * trav +
        (CostService.calculate_daily_costs idx budget).local_transport * n * trav +
        (CostService.calculate_daily_costs idx budget).activities * n * trav : ℤ) : ℚ) * 0.1) ∧
    (CostService.calculate_trip_costs idx budget n trav dkm).cost_breakdown.total =
      (CostService.calculate_trip_costs idx budget n trav dkm).cost_breakdown.accommodation +
      (CostService.calculate_trip_costs idx budget n trav dkm).cost_breakdown.food +
      (CostService.calculate_trip_costs idx budget n trav dkm).cost_breakdown.transportation_local +
      (CostService.calculate_trip_costs idx budget n trav dkm).cost_breakdown.activities +
      (CostService.calculate_trip_costs idx budget n trav dkm).cost_breakdown.transportation_to_destination +
      (CostService.calculate_trip_costs idx budget n trav dkm).cost_breakdown.miscellaneous ∧
    (CostService.calculate_daily_costs idx budget).accommodation =
      pyRound (2000 * idx * CostService.BUDGET_MULTIPLIERS budget.toLower) ∧
    (CostService.calculate_daily_costs idx budget).food =
      pyRound (800 * idx * CostService.BUDGET_MULTIPLIERS budget.toLower) ∧
    (CostService.calculate_daily_costs idx budget).local_transport =
      pyRound (400 * idx * CostService.BUDGET_MULTIPLIERS budget.toLower) ∧
    (CostService.calculate_daily_costs idx budget).activities =
      pyRound (500 * idx * CostService.BUDGET_MULTIPLIERS budget.toLower) :=
  ⟨rfl, rfl, rfl, rfl, rfl, rfl, rfl, rfl, rfl, rfl⟩

/-! ### Concrete fixtures for counterexamples and witnesses -/

def destFull : Destination :=
  { id := 1, average_cost_per_day := some 50, latitude := some 10, longitude := some 20 }

def destNoCoords : Destination :=
  { id := 5, average_cost_per_day := some 30 }

def destNearZero : Destination :=
  { id := 2, latitude := some 1, longitude := some 1 }

def destFar : Destination :=
  { id := 3, latitude := some 2, longitude := some 2 }

def destZeroLat : Destination :=
  { id := 4, average_cost_per_day := some 50, latitude := some 0, longitude := some 20 }

/-- A toy distance backend for the fixtures (1km-ish for `destNearZero`, 5 km
for everything else). -/
def distToy : ℚ → ℚ → ℚ → ℚ → ℚ := fun _ _ dla _ => if dla = 1 then 1 / 100 else 5

/-- The claim's reading of the distance sort key: the reported `distance_km`
ascending, with only a MISSING value as +∞. -/
def claim_distance_le (a b : Recommendation) : Bool := leInf a.distance_km b.distance_km

/-- C3 counterexample: with `maxDistanceKm` set (100) and the USER's
coordinates missing, a candidate with full destination coordinates is NOT
excluded — the ranking returns it — contradicting the claim that a missing
user coordinate excludes every candidate whenever `maxDistanceKm` is set. -/
theorem C3_counterexample :
    (get_recommendations (fun _ _ _ _ => 7) none none none none [] [] none (some 100) 10
      "popularity" 3 [destFull]).length = 1 := by
  norm_num [get_recommendations, recs_of, sort_recommendations, process_destination,
    candidate_distance, excluded, passes_query, destFull, optTruthy, List.length_take,
    List.filterMap_cons]

/-- C3 as amended: whenever `maxDistanceKm` is truthy (set and non-zero),
every candidate whose DESTINATION coordinates are missing is excluded from the
returned results — rank gives the same output as if those candidates had been
removed from the input — even if such a candidate would otherwise score
highest; it is never scored with the missing distance treated as zero. (The
claim's clause about missing USER coordinates is dropped: the source only
checks `user_lat is not None`, and with user coordinates missing candidates
keep flowing through with no distance computed.) -/
theorem C3_missing_coords_excluded (dist : ℚ → ℚ → ℚ → ℚ → ℚ)
    (ulat ulon bmin bmax : Option ℚ) (cats tags : List String) (minr mdk : Option ℚ)
    (limit : ℕ) (sort_by : String) (n : ℤ) (dests : List Destination)
    (hm : optTruthy mdk = true) :
    get_recommendations dist ulat ulon bmin bmax cats tags minr mdk limit sort_by n dests =
      get_recommendations dist ulat ulon bmin bmax cats tags minr mdk limit sort_by n
        (dests.filter (fun d => d.latitude.isSome && d.longitude.isSome)) := by
  have hzero : ∀ d : Destination, (d.latitude.isSome && d.longitude.isSome) = false →
      process_destination dist ulat ulon mdk n d = none := by
    intro d hd
    apply process_destination_none_of_missing_coords dist ulat ulon mdk n d hm
    cases hl : d.latitude <;> cases hl2 : d.longitude <;> simp_all
  suffices h : recs_of dist ulat ulon bmin bmax cats tags minr mdk n dests =
      recs_of dist ulat ulon bmin bmax cats tags minr mdk n
        (dests.filter (fun d => d.latitude.isSome && d.longitude.isSome)) by
    rw [get_recommendations, get_recommendations, h]
  rw [recs_of, recs_of]
  rw [filterMap_filter_eq _ (fun d => d.latitude.isSome && d.longitude.isSome) hzero,
    List.filter_filter, List.filter_filter]
  congr 1
  apply List.filter_congr
  intro d _
  rw [Bool.and_comm]

theorem C3_missing_coords_excluded_witness :
    optTruthy (some 100) = true ∧
      get_recommendations distToy (some 1) (some 1) none none [] [] none (some 100) 10
          "popularity" 3 [destFull, destNoCoords] =
        get_recommendations distToy (some 1) (some 1) none none [] [] none (some 100) 10
          "popularity" 3
          ([destFull, destNoCoords].filter (fun d => d.latitude.isSome && d.longitude.isSome)) :=
  ⟨by norm_num [optTruthy],
    C3_missing_coords_excluded distToy (some 1) (some 1) none none [] [] none (some 100) 10
      "popularity" 3 [destFull, destNoCoords] (by norm_num [optTruthy])⟩

/-- C4: for every candidate list, filters, sort key and limit, the ranking
output (1) has length at most `limit`, (2) is exactly the sorted full scored
set truncated to `limit` — truncation happens only after the full filtered
set has been scored and sorted, (3) is a subset of the recommendations built
from candidates that pass all filters, (4) the full sorted list is sorted by
the comparator the source selects for the requested `sort_by`, and (5) the
sort is stable: any pair in comparator order in the scored list (in
particular any tied pair) keeps its relative order. -/
theorem C4_rank_output_shape (dist : ℚ → ℚ → ℚ → ℚ → ℚ)
    (ulat ulon bmin bmax : Option ℚ) (cats tags : List String)
    (minr mdk : Option ℚ) (limit : ℕ) (sort_by : String) (n : ℤ)
    (dests : List Destination) :
    (get_recommendations dist ulat ulon bmin bmax cats tags minr mdk limit sort_by n
        dests).length ≤ limit ∧
    get_recommendations dist ulat ulon bmin bmax cats tags minr mdk limit sort_by n dests =
      (sort_recommendations sort_by ulat ulon
        (recs_of dist ulat ulon bmin bmax cats tags minr mdk n dests)).take limit ∧
    (∀ r ∈ get_recommendations dist ulat ulon bmin bmax cats tags minr mdk limit sort_by n dests,
      ∃ d, d ∈ dests ∧ passes_query bmin bmax cats tags minr d = true ∧
        process_destination dist ulat ulon mdk n d = some r) ∧
    List.Pairwise (fun a b => sort_le sort_by ulat ulon a b = true)
      (sort_recommendations sort_by ulat ulon
        (recs_of dist ulat ulon bmin bmax cats tags minr mdk n dests)) ∧
    (∀ a b : Recommendation,
      List.Sublist [a, b] (recs_of dist ulat ulon bmin bmax cats tags minr mdk n dests) →
      sort_le sort_by ulat ulon a b = true →
      List.Sublist [a, b] (sort_recommendations sort_by ulat ulon
        (recs_of dist ulat ulon bmin bmax cats tags minr mdk n dests))) := by
  refine ⟨?_, rfl, ?_, ?_, ?_⟩
  · rw [get_recommendations]
    exact List.length_take_le _ _
  · intro r hr
    rw [get_recommendations] at hr
    have hr2 := List.take_subset _ _ hr
    rw [sort_recommendations] at hr2
    have hr3 := List.mem_mergeSort.mp hr2
    rw [recs_of] at hr3
    obtain ⟨d, hd, hfd⟩ := List.mem_filterMap.mp hr3
    exact ⟨d, (List.mem_filter.mp hd).1, (List.mem_filter.mp hd).2, hfd⟩
  · rw [sort_recommendations]
    exact List.sorted_mergeSort (sort_le_trans sort_by ulat ulon)
      (sort_le_total sort_by ulat ulon) _
  · intro a b hsub hle
    rw [sort_recommendations]
    exact List.pair_sublist_mergeSort (sort_le_trans sort_by ulat ulon)
      (sort_le_total sort_by ulat ulon) hle hsub

theorem C4_rank_output_shape_witness :
    (get_recommendations distToy none none none none [] [] none none 10 "popularity" 3
      [destFull]).length ≤ 10 :=
  (C4_rank_output_shape distToy none none none none [] [] none none 10 "popularity" 3
    [destFull]).1

/-- C4 counterexample: under `sort_by='distance'` a candidate whose REPORTED
distance rounds to 0.0 (true distance 0.01, `round(0.01, 1) = 0.0`) is keyed
as +∞ by the `x['distance_km'] or float('inf')` truthiness, so the returned
list is NOT sorted by distance ascending with only MISSING distances as +∞:
the 5 km candidate precedes the 0.0 km one. -/
theorem C4_counterexample :
    ((get_recommendations distToy (some 9) (some 9) none none [] [] none none 10 "distance" 3
        [destNearZero, destFar]).map (fun r => r.distance_km) = [some 5, some 0]) ∧
    ¬ List.Pairwise (fun a b => claim_distance_le a b = true)
        (get_recommendations distToy (some 9) (some 9) none none [] [] none none 10 "distance" 3
          [destNearZero, destFar]) := by
  have hA : process_destination distToy (some 9) (some 9) none 3 destNearZero =
      some (build_recommendation none 3 destNearZero (some (1 / 100))) := by
    norm_num [process_destination, candidate_distance, excluded, distToy, destNearZero, optTruthy]
  have hB : process_destination distToy (some 9) (some 9) none 3 destFar =
      some (build_recommendation none 3 destFar (some 5)) := by
    norm_num [process_destination, candidate_distance, excluded, distToy, destFar, optTruthy]
  have hfilter : [destNearZero, destFar].filter (passes_query none none [] [] none) =
      [destNearZero, destFar] := rfl
  have hrecs : recs_of distToy (some 9) (some 9) none none [] [] none none 3
      [destNearZero, destFar] =
      [build_recommendation none 3 destNearZero (some (1 / 100)),
        build_recommendation none 3 destFar (some 5)] := by
    rw [recs_of, hfilter]
    simp only [List.filterMap_cons, List.filterMap_nil, hA, hB]
  have hdkA : (build_recommendation none 3 destNearZero (some (1 / 100))).distance_km =
      some 0 := by
    norm_num [build_recommendation, destNearZero, round1, pyRound, round_eq]
  have hdkB : (build_recommendation none 3 destFar (some 5)).distance_km = some 5 := by
    norm_num [build_recommendation, destFar, round1, pyRound, round_eq]
  have hle : sort_le "distance" (some 9) (some 9)
      (build_recommendation none 3 destNearZero (some (1 / 100)))
      (build_recommendation none 3 destFar (some 5)) = false := by
    norm_num [sort_le, optTruthy, distance_key, leInf, hdkA, hdkB]
  have hout : get_recommendations distToy (some 9) (some 9) none none [] [] none none 10
      "distance" 3 [destNearZero, destFar] =
      [build_recommendation none 3 destFar (some 5),
        build_recommendation none 3 destNearZero (some (1 / 100))] := by
    rw [get_recommendations, hrecs, sort_recommendations, mergeSort_pair, hle]
    simp [List.take_of_length_le]
  constructor
  · rw [hout]
    simp only [List.map_cons, List.map_nil, hdkA, hdkB]
  · rw [hout]
    intro hpair
    have h1 := (List.pairwise_cons.mp hpair).1 _ (List.mem_cons_self _ _)
    norm_num [claim_distance_le, leInf, hdkA, hdkB] at h1

/-- C9 counterexample: with both USER coordinates equal to 0 (zero is not
`None`, and user coordinates are only checked with `is not None`),
`maxDistanceKm = 1000` set, and a destination with truthy coordinates, a
distance IS computed and the candidate is returned with that distance rather
than excluded. -/
theorem C9_counterexample :
    (get_recommendations (fun _ _ _ _ => 157) (some 0) (some 0) none none [] [] none (some 1000)
        10 "popularity" 3 [destFull]).map (fun r => r.distance_km) = [some 157] := by
  have hp : process_destination (fun _ _ _ _ => 157) (some 0) (some 0) (some 1000) 3 destFull =
      some (build_recommendation (some 1000) 3 destFull (some 157)) := by
    norm_num [process_destination, candidate_distance, excluded, destFull, optTruthy]
  have hdk : (build_recommendation (some 1000) 3 destFull (some 157)).distance_km =
      some 157 := by
    norm_num [build_recommendation, round1, pyRound, round_eq]
  have hfilter : [destFull].filter (passes_query none none [] [] none) = [destFull] := rfl
  rw [get_recommendations, recs_of, hfilter]
  simp only [List.filterMap_cons, List.filterMap_nil, hp]
  rw [sort_recommendations]
  simp only [List.mergeSort_singleton]
  rw [List.take_of_length_le (by simp)]
  simp only [List.map_cons, List.map_nil, hdk]

/-- C9 as amended: a DESTINATION coordinate equal to exactly 0 is treated as
missing by the ranker — no distance is ever computed for such a candidate
(the `dest.latitude and dest.longitude` truthiness gate blocks it), and when
`maxDistanceKm` is truthy (set and non-zero) the candidate is excluded even
though the coordinate is present on the record. USER coordinates equal to 0
are NOT treated as missing for the distance computation (they are only
checked with `is not None`; see the counterexample). -/
theorem C9_zero_coordinate_treated_missing (dist : ℚ → ℚ → ℚ → ℚ → ℚ)
    (ulat ulon mdk : Option ℚ) (n : ℤ) (d : Destination)
    (hc : d.latitude = some 0 ∨ d.longitude = some 0) :
    candidate_distance dist ulat ulon d = none ∧
      (optTruthy mdk = true → process_destination dist ulat ulon mdk n d = none) :=
  process_destination_zero_coord dist ulat ulon mdk n d hc

theorem C9_zero_coordinate_treated_missing_witness :
    (destZeroLat.latitude = some 0 ∨ destZeroLat.longitude = some 0) ∧
      candidate_distance distToy (some 1) (some 2) destZeroLat = none ∧
      process_destination distToy (some 1) (some 2) (some 5) 3 destZeroLat = none := by
  have h := C9_zero_coordinate_treated_missing distToy (some 1) (some 2) (some 5) 3 destZeroLat
    (Or.inl rfl)
  exact ⟨Or.inl rfl, h.1, h.2 (by norm_num [optTruthy])⟩

/-- C10: when the computed distance between the user and a destination is
exactly 0, the ranker computes `distance = 0`, but the output reports
`distance_km` as `None` (the `round(distance, 1) if distance else None`
truthiness), while the budget breakdown and total trip cost ARE still
computed from distance 0 (the breakdown gate checks `distance is not None`);
consequently the distance sort key of such a candidate is +∞ (`none`). -/
theorem C10_zero_distance_reported_null (dist : ℚ → ℚ → ℚ → ℚ → ℚ)
    (ula ulo dla dlo : ℚ) (d : Destination) (n : ℤ) (mdk : Option ℚ)
    (h1 : d.latitude = some dla) (h2 : d.longitude = some dlo)
    (h3 : dla ≠ 0) (h4 : dlo ≠ 0)
    (h5 : dist ula ulo dla dlo = 0)
    (h6 : optTruthy d.average_cost_per_day = true) :
    candidate_distance dist (some ula) (some ulo) d = some 0 ∧
    (build_recommendation mdk n d (some 0)).distance_km = none ∧
    (build_recommendation mdk n d (some 0)).budget_breakdown =
      some (calculate_comprehensive_budget 0 n (d.average_cost_per_day.getD 0) (tier_of d)) ∧
    (build_recommendation mdk n d (some 0)).total_trip_cost =
      some (calculate_comprehensive_budget 0 n (d.average_cost_per_day.getD 0) (tier_of d)).total ∧
    distance_key (build_recommendation mdk n d (some 0)) = none ∧
    (excluded mdk d (some 0) = false →
      process_destination dist (some ula) (some ulo) mdk n d =
        some (build_recommendation mdk n d (some 0))) := by
  have hcd : candidate_distance dist (some ula) (some ulo) d = some 0 := by
    unfold candidate_distance
    rw [h1, h2]
    simp [h3, h4, h5]
  have hbb : (build_recommendation mdk n d (some 0)).budget_breakdown =
      some (calculate_comprehensive_budget 0 n (d.average_cost_per_day.getD 0) (tier_of d)) := by
    simp [build_recommendation, h6]
  have hdk : (build_recommendation mdk n d (some 0)).distance_km = none := by
    simp [build_recommendation]
  refine ⟨hcd, hdk, hbb, ?_, ?_, ?_⟩
  · show ((build_recommendation mdk n d (some 0)).budget_breakdown.map (·.total)) = _
    rw [hbb]
    rfl
  · rw [distance_key, hdk]
  · intro hex
    simp only [process_destination, hcd, hex]
    simp

theorem C10_zero_distance_reported_null_witness :
    ((10 : ℚ) ≠ 0 ∧ (20 : ℚ) ≠ 0 ∧ optTruthy destFull.average_cost_per_day = true) ∧
    candidate_distance (fun _ _ _ _ => 0) (some 10) (some 20) destFull = some 0 ∧
    (build_recommendation none 3 destFull (some 0)).distance_km = none ∧
    (build_recommendation none 3 destFull (some 0)).budget_breakdown =
      some (calculate_comprehensive_budget 0 3 (destFull.average_cost_per_day.getD 0)
        (tier_of destFull)) ∧
    distance_key (build_recommendation none 3 destFull (some 0)) = none ∧
    process_destination (fun _ _ _ _ => 0) (some 10) (some 20) none 3 destFull =
      some (build_recommendation none 3 destFull (some 0)) := by
  have h := C10_zero_distance_reported_null (fun _ _ _ _ => 0) 10 20 10 20 destFull 3 none
    rfl rfl (by norm_num) (by norm_num) rfl (by norm_num [destFull, optTruthy])
  exact ⟨⟨by norm_num, by norm_num, by norm_num [destFull, optTruthy]⟩, h.1, h.2.1, h.2.2.1,
    h.2.2.2.2.1, h.2.2.2.2.2 rfl⟩

end Miniproject
